import Mathlib

/-!
Verification of the resilient aggregation engine of the
Product Availability & Pricing Normalization Service.

The definitions below are a shallow embedding of the Python source:

* `src/services/circuit_breaker.py` — per-vendor circuit breaker
  (`CircuitBreaker.can_execute`, `record_success`, `record_failure`,
  `get_metrics`);
* `src/services/vendor_service.py` — retry executor
  (`_query_vendor_with_retry`), breaker-gated vendor call
  (`_query_vendor_with_circuit_breaker`), concurrent fan-out
  (`_query_all_vendors`), freshness filter (`_filter_by_freshness`),
  selection policy (`_select_best_vendor`) and the orchestration entry
  point (`get_best_vendor`);
* `src/config.py` — the settings consumed by those functions.

Modelling conventions: time instants are integers (seconds); Python
floats (prices, backoff delays) are modelled as rationals; the global
`settings` object is an explicit `Config` record threaded into each
function; `datetime.utcnow()` is an explicit `now` argument; vendor
calls are modelled by a trace `fetch : Nat → AttemptOutcome` giving the
outcome of each numbered attempt; exceptions become an explicit sum
type; the Redis cache write performed by `get_best_vendor` is recorded
in an explicit write list; calls to the breaker's mutating methods are
additionally logged as an explicit report list so that claims about
which reports happen are directly statable.
-/

/-- The subset of `src/config.py` `Settings` consumed by the core, with the
defaults declared there. -/
structure Config where
  CIRCUIT_BREAKER_FAILURE_THRESHOLD : Nat := 3
  CIRCUIT_BREAKER_TIMEOUT_SECONDS : Int := 30
  VENDOR_MAX_RETRIES : Nat := 2
  DATA_FRESHNESS_MINUTES : Int := 10
  PRICE_DIFFERENCE_THRESHOLD_PERCENT : ℚ := 10
  CACHE_TTL_SECONDS : Nat := 120
deriving DecidableEq, Repr

/-- `CircuitState` from `circuit_breaker.py`. The source state literal
"open" is spelled `opened` here because `open` is a Lean keyword. -/
inductive CircuitState
  | closed
  | opened
  | half_open
deriving DecidableEq, Repr

/-- The mutable fields of the Python `CircuitBreaker` object
(`CircuitBreaker.__init__`, `circuit_breaker.py` lines 33-49). -/
structure CircuitBreaker where
  name : String
  failure_count : Nat
  success_count : Nat
  state : CircuitState
  last_failure_time : Option Int
  last_state_change : Int
  total_calls : Nat
  total_failures : Nat
deriving DecidableEq, Repr

/-- A freshly constructed breaker (`CircuitBreaker.__init__`). -/
def CircuitBreaker.init (name : String) (now : Int) : CircuitBreaker :=
  { name := name
    failure_count := 0
    success_count := 0
    state := .closed
    last_failure_time := none
    last_state_change := now
    total_calls := 0
    total_failures := 0 }

/-- `CircuitBreaker._should_attempt_reset` (lines 149-163): the cooldown has
elapsed when `utcnow() >= last_failure_time + CIRCUIT_BREAKER_TIMEOUT_SECONDS`;
`False` when no failure has been recorded. -/
def should_attempt_reset (cfg : Config) (now : Int) (cb : CircuitBreaker) : Bool :=
  match cb.last_failure_time with
  | none => false
  | some t => decide (t + cfg.CIRCUIT_BREAKER_TIMEOUT_SECONDS ≤ now)

/-- `CircuitBreaker._transition_to_closed` (lines 165-169). -/
def transition_to_closed (now : Int) (cb : CircuitBreaker) : CircuitBreaker :=
  { cb with state := .closed, failure_count := 0, last_state_change := now }

/-- `CircuitBreaker._transition_to_open` (lines 171-174). -/
def transition_to_open (now : Int) (cb : CircuitBreaker) : CircuitBreaker :=
  { cb with state := .opened, last_state_change := now }

/-- `CircuitBreaker._transition_to_half_open` (lines 176-179). -/
def transition_to_half_open (now : Int) (cb : CircuitBreaker) : CircuitBreaker :=
  { cb with state := .half_open, last_state_change := now }

/-- `CircuitBreaker.can_execute` (lines 51-86). It first increments
`total_calls` unconditionally, then: `closed` allows; `open` allows and
moves to `half_open` when the cooldown elapsed, otherwise blocks;
`half_open` allows. Returns the Bool result together with the updated
breaker. -/
def can_execute (cfg : Config) (now : Int) (cb : CircuitBreaker) :
    Bool × CircuitBreaker :=
  let cb := { cb with total_calls := cb.total_calls + 1 }
  match cb.state with
  | .closed => (true, cb)
  | .opened =>
      if should_attempt_reset cfg now cb then
        (true, transition_to_half_open now cb)
      else
        (false, cb)
  | .half_open => (true, cb)

/-- `CircuitBreaker.record_success` (lines 88-112): increments
`success_count`; in `half_open` closes the circuit; in `closed` resets the
failure counter (the source guards the reset with `failure_count > 0`,
which has the same net effect); in `open` only the counter increment
happens. -/
def record_success (now : Int) (cb : CircuitBreaker) : CircuitBreaker :=
  let cb := { cb with success_count := cb.success_count + 1 }
  match cb.state with
  | .half_open => transition_to_closed now cb
  | .closed => { cb with failure_count := 0 }
  | .opened => cb

/-- `CircuitBreaker.record_failure` (lines 114-147): increments
`failure_count` and `total_failures` and stamps `last_failure_time`; in
`half_open` reopens; in `closed` opens once the incremented counter
reaches `CIRCUIT_BREAKER_FAILURE_THRESHOLD`; in `open` only the counter
updates happen. -/
def record_failure (cfg : Config) (now : Int) (cb : CircuitBreaker) : CircuitBreaker :=
  let cb := { cb with
    failure_count := cb.failure_count + 1
    total_failures := cb.total_failures + 1
    last_failure_time := some now }
  match cb.state with
  | .half_open => transition_to_open now cb
  | .closed =>
      if cfg.CIRCUIT_BREAKER_FAILURE_THRESHOLD ≤ cb.failure_count then
        transition_to_open now cb
      else
        cb
  | .opened => cb

/-- The dictionary returned by `CircuitBreaker.get_metrics` (lines
190-218). `failure_rate_percent` is the exact rational
`total_failures / total_calls * 100` (0 when no call was made); the
source additionally rounds it to two decimal places for display. -/
structure BreakerMetrics where
  vendor : String
  state : CircuitState
  failure_count : Nat
  success_count : Nat
  total_calls : Nat
  total_failures : Nat
  failure_rate_percent : ℚ
  time_in_current_state_seconds : Int
  last_failure : Option Int
deriving DecidableEq, Repr

/-- `CircuitBreaker.get_metrics` (lines 190-218). -/
def get_metrics (now : Int) (cb : CircuitBreaker) : BreakerMetrics :=
  { vendor := cb.name
    state := cb.state
    failure_count := cb.failure_count
    success_count := cb.success_count
    total_calls := cb.total_calls
    total_failures := cb.total_failures
    failure_rate_percent :=
      if 0 < cb.total_calls then
        (cb.total_failures : ℚ) / (cb.total_calls : ℚ) * 100
      else 0
    time_in_current_state_seconds := now - cb.last_state_change
    last_failure := cb.last_failure_time }

/-- `ProductStatus` from `models/models.py`. -/
inductive ProductStatus
  | IN_STOCK
  | OUT_OF_STOCK
deriving DecidableEq, Repr, BEq

/-- The normalized `VendorResponse` model (`models/models.py` lines 13-79).
Prices are modelled as rationals, timestamps as integer instants. -/
structure VendorResponse where
  vendor_name : String
  sku : String
  price : ℚ
  stock : Nat
  status : ProductStatus
  timestamp : Int
  response_time_ms : Option ℚ := none
deriving DecidableEq, Repr

/-- The `ProductResponse` model (`models/models.py` lines 82-142). -/
structure ProductResponse where
  sku : String
  vendor : Option String := none
  price : Option ℚ := none
  stock : Option Nat := none
  status : ProductStatus
  timestamp : Option Int := none
  message : Option String := none
deriving DecidableEq, Repr

/-- Outcome of one numbered attempt of `vendor_client.get_product(sku)` as
seen through `asyncio.wait_for` in `_query_vendor_with_retry`: the call
returns (possibly `None`, the vendor's explicit not-found signal), times
out, or raises some other error. -/
inductive AttemptOutcome
  | ok (r : Option VendorResponse)
  | timeout
  | error (msg : String)
deriving DecidableEq, Repr

/-- The exception finally propagated out of `_query_vendor_with_retry` when
retries are exhausted: the `Exception("Max retries exceeded for ...")`
raised on the timeout path (line 249), or the re-raised original error on
the generic path (line 266). -/
inductive VendorFailure
  | maxRetriesExceeded (vendor_name : String)
  | vendorError (msg : String)
deriving DecidableEq, Repr

/-- Result of a vendor call: a normal return (possibly `None`) or a raised
exception. -/
inductive RetryResult
  | ok (r : Option VendorResponse)
  | raised (e : VendorFailure)
deriving DecidableEq, Repr

/-- Observable outcome of `_query_vendor_with_retry`: its result, how many
times `vendor_client.get_product` was invoked, and the list of backoff
sleeps performed (in seconds). -/
structure RetryOutcome where
  result : RetryResult
  fetch_calls : Nat
  backoff_waits : List ℚ
deriving DecidableEq, Repr

/-- The backoff sleep before the retry that follows failed attempt number
`attempt`: `0.1 * (2 ** (attempt - 1))` seconds
(`vendor_service.py` lines 239 and 256). -/
def backoff_time (attempt : Nat) : ℚ :=
  (1 / 10) * 2 ^ (attempt - 1)

/-- `VendorService._query_vendor_with_retry` (`vendor_service.py` lines
197-266). Attempt numbers start at 1; a failed attempt is retried only
while `attempt < settings.VENDOR_MAX_RETRIES`; when retries are exhausted
a timeout raises "Max retries exceeded" and a generic error is re-raised.
The trace `fetch` gives the outcome of each numbered attempt. -/
def query_vendor_with_retry (cfg : Config) (vendor_name : String)
    (fetch : Nat → AttemptOutcome) (attempt : Nat) : RetryOutcome :=
  match fetch attempt with
  | .ok r => ⟨.ok r, 1, []⟩
  | .timeout =>
      if h : attempt < cfg.VENDOR_MAX_RETRIES then
        let rest := query_vendor_with_retry cfg vendor_name fetch (attempt + 1)
        ⟨rest.result, rest.fetch_calls + 1, backoff_time attempt :: rest.backoff_waits⟩
      else
        ⟨.raised (.maxRetriesExceeded vendor_name), 1, []⟩
  | .error msg =>
      if h : attempt < cfg.VENDOR_MAX_RETRIES then
        let rest := query_vendor_with_retry cfg vendor_name fetch (attempt + 1)
        ⟨rest.result, rest.fetch_calls + 1, backoff_time attempt :: rest.backoff_waits⟩
      else
        ⟨.raised (.vendorError msg), 1, []⟩
termination_by cfg.VENDOR_MAX_RETRIES - attempt
decreasing_by all_goals omega

-- Allow kernel evaluation of the retry executor on concrete inputs.
unseal query_vendor_with_retry

/-- A call to one of the breaker's two reporting methods. -/
inductive BreakerReport
  | success
  | failure
deriving DecidableEq, Repr

/-- Observable outcome of `_query_vendor_with_circuit_breaker`: the result
returned (or exception re-raised) to the fan-out layer, the breaker after
the call, which reporting methods were invoked, and the retry layer's
fetch/backoff trace. -/
structure VendorCallOutcome where
  result : RetryResult
  breaker : CircuitBreaker
  reports : List BreakerReport
  fetch_calls : Nat
  backoff_waits : List ℚ
deriving DecidableEq, Repr

/-- `VendorService._query_vendor_with_circuit_breaker` (`vendor_service.py`
lines 154-195): gate through `can_execute` (returning `None` with no
vendor call when blocked); otherwise run the retry executor, then report
`record_success` on any normal return or `record_failure` on an
exception, which is then re-raised. -/
def query_vendor_with_circuit_breaker (cfg : Config) (now : Int)
    (vendor_name : String) (cb : CircuitBreaker)
    (fetch : Nat → AttemptOutcome) : VendorCallOutcome :=
  let gate := can_execute cfg now cb
  if gate.1 then
    let retry := query_vendor_with_retry cfg vendor_name fetch 1
    match retry.result with
    | .ok r =>
        ⟨.ok r, record_success now gate.2, [.success],
          retry.fetch_calls, retry.backoff_waits⟩
    | .raised e =>
        ⟨.raised e, record_failure cfg now gate.2, [.failure],
          retry.fetch_calls, retry.backoff_waits⟩
  else
    ⟨.ok none, gate.2, [], 0, []⟩

/-- One vendor task handed to the fan-out: its registered name, its
breaker, and its attempt trace. -/
structure VendorCall where
  name : String
  breaker : CircuitBreaker
  fetch : Nat → AttemptOutcome

/-- `VendorService._query_all_vendors` (`vendor_service.py` lines 115-152):
run every vendor call (`asyncio.gather` with `return_exceptions=True`, so
no exception propagates), then keep the results that are neither an
exception nor `None`. -/
def query_all_vendors (cfg : Config) (now : Int) (calls : List VendorCall) :
    List VendorResponse :=
  let results := calls.map fun c =>
    query_vendor_with_circuit_breaker cfg now c.name c.breaker c.fetch
  results.filterMap fun r =>
    match r.result with
    | .ok (some q) => some q
    | _ => none

/-- `VendorService._filter_by_freshness` (`vendor_service.py` lines
268-298): keep exactly the responses with
`timestamp >= utcnow() - timedelta(minutes=DATA_FRESHNESS_MINUTES)`. -/
def filter_by_freshness (cfg : Config) (now : Int)
    (responses : List VendorResponse) : List VendorResponse :=
  let cutoff_time := now - 60 * cfg.DATA_FRESHNESS_MINUTES
  responses.filter fun r => decide (cutoff_time ≤ r.timestamp)

/-- The `for vendor in sorted_by_price[1:]` loop of
`VendorService._select_best_vendor` (`vendor_service.py` lines 337-353):
skip quotes whose percent price difference from the cheapest is within
the threshold; at the first one exceeding it whose stock is strictly
higher than the cheapest's, return it; otherwise keep scanning. -/
def scan_for_higher_stock (threshold : ℚ) (cheapest : VendorResponse) :
    List VendorResponse → Option VendorResponse
  | [] => none
  | vendor :: rest =>
      let price_diff_percent := (vendor.price - cheapest.price) / cheapest.price * 100
      if price_diff_percent ≤ threshold then
        scan_for_higher_stock threshold cheapest rest
      else if cheapest.stock < vendor.stock then
        some vendor
      else
        scan_for_higher_stock threshold cheapest rest

/-- `VendorService._select_best_vendor` (`vendor_service.py` lines
300-356): keep the responses with `stock > 0 and status == IN_STOCK`;
`None` if none remain; otherwise sort by price ascending, return the
single element when only one remains, and otherwise run the
higher-stock override scan over the non-cheapest quotes, falling back
to the cheapest. -/
def select_best_vendor (cfg : Config) (responses : List VendorResponse) :
    Option VendorResponse :=
  let in_stock_vendors := responses.filter fun r =>
    decide (0 < r.stock) && (r.status == ProductStatus.IN_STOCK)
  if in_stock_vendors.isEmpty then
    none
  else
    let sorted_by_price := in_stock_vendors.mergeSort fun a b => decide (a.price ≤ b.price)
    match sorted_by_price with
    | [] => none
    | cheapest :: rest =>
        if rest.isEmpty then
          some cheapest
        else
          match scan_for_higher_stock cfg.PRICE_DIFFERENCE_THRESHOLD_PERCENT cheapest rest with
          | some vendor => some vendor
          | none => some cheapest

/-- The selection policy exactly as the specification words it (spec §4.6):
discard quotes with `stock == 0` or status `OUT_OF_STOCK`; if none
remain, no selection; otherwise sort by price ascending and return the
first non-cheapest quote whose percent price difference from the
cheapest strictly exceeds the threshold and whose stock is strictly
greater than the cheapest's; if none, the cheapest. Stated separately
from `select_best_vendor` so the two can be compared. -/
def selection_policy_spec (threshold : ℚ) (quotes : List VendorResponse) :
    Option VendorResponse :=
  let viable := quotes.filter fun q =>
    !((q.stock == 0) || (q.status == ProductStatus.OUT_OF_STOCK))
  match viable.mergeSort (fun a b => decide (a.price ≤ b.price)) with
  | [] => none
  | cheapest :: rest =>
      match rest.find? (fun q =>
          decide (threshold < (q.price - cheapest.price) / cheapest.price * 100) &&
          decide (cheapest.stock < q.stock)) with
      | some q => some q
      | none => some cheapest

/-- One `cache_service.set_product` call performed by `get_best_vendor`
(`cache_service.py` lines 132-177): the key, the value, and the TTL the
entry is written with (`ttl or settings.CACHE_TTL_SECONDS`; the service
passes no explicit TTL, so the configured default applies). -/
structure CacheWrite where
  sku : String
  value : ProductResponse
  ttl_seconds : Nat
deriving DecidableEq, Repr

/-- Observable outcome of `VendorService.get_best_vendor`: the response
returned to the caller and the cache writes performed. -/
structure BestVendorOutcome where
  response : Option ProductResponse
  cache_writes : List CacheWrite
deriving DecidableEq, Repr

/-- `VendorService.get_best_vendor` (`vendor_service.py` lines 52-113):
return a cache hit untouched; on a miss, fan out, filter by freshness,
return `None` (no cache write) when nothing fresh remains; otherwise
select the best vendor, and either build the `ProductResponse`, cache it
with the configured TTL and return it, or return `None` with no cache
write when no vendor has stock. -/
def get_best_vendor (cfg : Config) (now : Int) (sku : String)
    (cached : Option ProductResponse) (calls : List VendorCall) :
    BestVendorOutcome :=
  match cached with
  | some cached_result => ⟨some cached_result, []⟩
  | none =>
      let vendor_responses := query_all_vendors cfg now calls
      let fresh_responses := filter_by_freshness cfg now vendor_responses
      if fresh_responses.isEmpty then
        ⟨none, []⟩
      else
        match select_best_vendor cfg fresh_responses with
        | some best_vendor =>
            let result : ProductResponse :=
              { sku := sku
                vendor := some best_vendor.vendor_name
                price := some best_vendor.price
                stock := some best_vendor.stock
                status := best_vendor.status
                timestamp := some best_vendor.timestamp }
            ⟨some result, [⟨sku, result, cfg.CACHE_TTL_SECONDS⟩]⟩
        | none => ⟨none, []⟩

/-- Harness for claims about failure sequences: fold `record_failure`
over a list of failure instants. -/
def apply_failures (cfg : Config) (times : List Int) (cb : CircuitBreaker) :
    CircuitBreaker :=
  times.foldl (fun c t => record_failure cfg t c) cb

/-- Harness for claims about sequences of gate checks: run `can_execute`
at each instant in turn, collecting the returned Bools and the final
breaker. -/
def can_execute_seq (cfg : Config) (nows : List Int) (cb : CircuitBreaker) :
    List Bool × CircuitBreaker :=
  match nows with
  | [] => ([], cb)
  | t :: rest =>
      let gate := can_execute cfg t cb
      let more := can_execute_seq cfg rest gate.2
      (gate.1 :: more.1, more.2)

/-! ### Concrete fixtures used by witnesses and counterexamples -/

/-- A cheap in-stock quote (price 100, stock 5). -/
def sampleQuoteA : VendorResponse :=
  { vendor_name := "VendorOne"
    sku := "ABC123"
    price := 100
    stock := 5
    status := .IN_STOCK
    timestamp := 0 }

/-- A pricier quote with much more stock (price 115, stock 50). -/
def sampleQuoteB : VendorResponse :=
  { vendor_name := "VendorTwo"
    sku := "ABC123"
    price := 115
    stock := 50
    status := .IN_STOCK
    timestamp := 0 }

/-- A closed breaker that has already seen two consecutive failures. -/
def cbTwoFailures : CircuitBreaker :=
  { name := "VendorOne"
    failure_count := 2
    success_count := 0
    state := .closed
    last_failure_time := some 1
    last_state_change := 0
    total_calls := 4
    total_failures := 2 }

/-! ### Helper lemmas about single breaker transitions -/

theorem record_failure_failure_count (cfg : Config) (t : Int) (cb : CircuitBreaker) :
    (record_failure cfg t cb).failure_count = cb.failure_count + 1 := by
  simp only [record_failure, transition_to_open]
  split <;> (try split) <;> rfl

theorem record_failure_last_failure_time (cfg : Config) (t : Int) (cb : CircuitBreaker) :
    (record_failure cfg t cb).last_failure_time = some t := by
  simp only [record_failure, transition_to_open]
  split <;> (try split) <;> rfl

theorem record_failure_state_closed (cfg : Config) (t : Int) (cb : CircuitBreaker)
    (h : cb.state = .closed) :
    (record_failure cfg t cb).state =
      if cfg.CIRCUIT_BREAKER_FAILURE_THRESHOLD ≤ cb.failure_count + 1 then
        .opened
      else
        .closed := by
  simp only [record_failure, transition_to_open, h]
  split <;> simp_all

theorem record_failure_state_opened (cfg : Config) (t : Int) (cb : CircuitBreaker)
    (h : cb.state = .opened) :
    (record_failure cfg t cb).state = .opened := by
  simp only [record_failure, transition_to_open, h]

theorem can_execute_blocked (cfg : Config) (now tf : Int) (cb : CircuitBreaker)
    (hst : cb.state = .opened) (hlt : cb.last_failure_time = some tf)
    (hnow : now < tf + cfg.CIRCUIT_BREAKER_TIMEOUT_SECONDS) :
    can_execute cfg now cb =
      (false, { cb with total_calls := cb.total_calls + 1 }) := by
  simp only [can_execute, should_attempt_reset, hst, hlt]
  have : ¬ (tf + cfg.CIRCUIT_BREAKER_TIMEOUT_SECONDS ≤ now) := by omega
  simp [this]

/-! ### Helper lemmas about failure and gate-check sequences -/

theorem apply_failures_spec (cfg : Config) (times : List Int) (cb : CircuitBreaker)
    (h : cb.state = .closed ∨ cb.state = .opened) :
    (apply_failures cfg times cb).failure_count = cb.failure_count + times.length ∧
    ((apply_failures cfg times cb).state = .closed ∨
      (apply_failures cfg times cb).state = .opened) ∧
    (cb.state = .opened → (apply_failures cfg times cb).state = .opened) ∧
    (cfg.CIRCUIT_BREAKER_FAILURE_THRESHOLD ≤ cb.failure_count + times.length ∧
        1 ≤ times.length →
      (apply_failures cfg times cb).state = .opened) ∧
    (∀ t, times.getLast? = some t →
      (apply_failures cfg times cb).last_failure_time = some t) := by
  induction times generalizing cb with
  | nil =>
      refine ⟨rfl, h, fun ho => ho, fun hc => absurd hc.2 (by simp), fun t ht => by simp at ht⟩
  | cons t ts ih =>
      have hstep : apply_failures cfg (t :: ts) cb =
          apply_failures cfg ts (record_failure cfg t cb) := rfl
      set cb1 := record_failure cfg t cb with hcb1
      have hcount1 : cb1.failure_count = cb.failure_count + 1 :=
        record_failure_failure_count cfg t cb
      have hlast1 : cb1.last_failure_time = some t :=
        record_failure_last_failure_time cfg t cb
      have hstate1 : cb1.state = .closed ∨ cb1.state = .opened := by
        rcases h with hc | ho
        · rw [hcb1, record_failure_state_closed cfg t cb hc]
          split <;> simp
        · right; exact record_failure_state_opened cfg t cb ho
      obtain ⟨ih1, ih2, ih3, ih4, ih5⟩ := ih cb1 hstate1
      rw [hstep]
      refine ⟨by rw [ih1, hcount1]; simp; omega, ih2, ?_, ?_, ?_⟩
      · intro ho
        exact ih3 (record_failure_state_opened cfg t cb ho)
      · rintro ⟨hthr, -⟩
        rcases h with hc | ho
        · by_cases hearly : cfg.CIRCUIT_BREAKER_FAILURE_THRESHOLD ≤ cb.failure_count + 1
          · refine ih3 ?_
            rw [hcb1, record_failure_state_closed cfg t cb hc]
            simp [hearly]
          · have hts : 1 ≤ ts.length := by simp at hthr ⊢; omega
            refine ih4 ⟨?_, hts⟩
            rw [hcount1]; simp at hthr ⊢; omega
        · exact ih3 (record_failure_state_opened cfg t cb ho)
      · intro tl htl
        cases hts : ts with
        | nil =>
            subst hts
            simp [List.getLast?] at htl
            subst htl
            simpa [apply_failures] using hlast1
        | cons a as =>
            subst hts
            rw [List.getLast?_cons_cons] at htl
            exact ih5 tl htl

theorem can_execute_seq_all_blocked (cfg : Config) (nows : List Int) (tf : Int)
    (cb : CircuitBreaker)
    (hst : cb.state = .opened) (hlt : cb.last_failure_time = some tf)
    (hnows : ∀ t ∈ nows, t < tf + cfg.CIRCUIT_BREAKER_TIMEOUT_SECONDS) :
    (can_execute_seq cfg nows cb).1 = nows.map (fun _ => false) := by
  induction nows generalizing cb with
  | nil => rfl
  | cons t ts ih =>
      have hblock := can_execute_blocked cfg t tf cb hst hlt
        (hnows t (by simp))
      simp only [can_execute_seq, hblock, List.map_cons, List.cons.injEq]
      exact ⟨trivial, ih _ hst hlt (fun u hu => hnows u (by simp [hu]))⟩

/-- Claim C1: if, starting from a `closed` breaker, `record_failure` is
invoked enough consecutive times (with no intervening success) for the
consecutive-failure counter to reach the configured threshold, the
breaker transitions to `open`, records the last failure instant, and
every subsequent `can_execute` call made before the cooldown has elapsed
since that last failure returns `false`. -/
theorem c1_threshold_failures_open_and_block (cfg : Config) (cb : CircuitBreaker)
    (times : List Int) (tlast : Int) (nows : List Int)
    (hclosed : cb.state = .closed)
    (hthr : cfg.CIRCUIT_BREAKER_FAILURE_THRESHOLD ≤ cb.failure_count + times.length)
    (hlen : 1 ≤ times.length)
    (hlast : times.getLast? = some tlast)
    (hnows : ∀ t ∈ nows, t < tlast + cfg.CIRCUIT_BREAKER_TIMEOUT_SECONDS) :
    (apply_failures cfg times cb).state = .opened ∧
    (apply_failures cfg times cb).last_failure_time = some tlast ∧
    (can_execute_seq cfg nows (apply_failures cfg times cb)).1 =
      nows.map (fun _ => false) := by
  obtain ⟨-, -, -, h4, h5⟩ := apply_failures_spec cfg times cb (Or.inl hclosed)
  have hopen := h4 ⟨hthr, hlen⟩
  have hlastf := h5 tlast hlast
  exact ⟨hopen, hlastf, can_execute_seq_all_blocked cfg nows tlast _ hopen hlastf hnows⟩

/-- Witness for C1 at the configured defaults: a fresh breaker, three
failures at instants 1, 2, 3, and gate checks at 4, 20 and 32, all
before the cooldown deadline 33; all the checks return false. -/
theorem c1_threshold_failures_open_and_block_witness :
    (apply_failures {} [1, 2, 3] (CircuitBreaker.init "VendorOne" 0)).state = .opened ∧
    (apply_failures {} [1, 2, 3] (CircuitBreaker.init "VendorOne" 0)).last_failure_time = some 3 ∧
    (can_execute_seq {} [4, 20, 32]
      (apply_failures {} [1, 2, 3] (CircuitBreaker.init "VendorOne" 0))).1 =
      [false, false, false] :=
  c1_threshold_failures_open_and_block {} (CircuitBreaker.init "VendorOne" 0)
    [1, 2, 3] 3 [4, 20, 32] (by decide) (by decide) (by decide) (by decide)
    (by decide)

/-- Claim C2: for an `open` breaker whose cooldown has elapsed since the
last recorded failure, the next `can_execute` returns true and moves the
breaker to `half_open` as a side effect; a subsequent `record_success`
then moves it to `closed` with the consecutive-failure counter reset
to 0. -/
theorem c2_cooldown_probe_then_close (cfg : Config) (now now2 tf : Int)
    (cb : CircuitBreaker)
    (hopen : cb.state = .opened)
    (hlast : cb.last_failure_time = some tf)
    (helapsed : tf + cfg.CIRCUIT_BREAKER_TIMEOUT_SECONDS ≤ now) :
    (can_execute cfg now cb).1 = true ∧
    (can_execute cfg now cb).2.state = .half_open ∧
    (record_success now2 (can_execute cfg now cb).2).state = .closed ∧
    (record_success now2 (can_execute cfg now cb).2).failure_count = 0 := by
  have hgate : can_execute cfg now cb =
      (true, transition_to_half_open now { cb with total_calls := cb.total_calls + 1 }) := by
    simp [can_execute, should_attempt_reset, hopen, hlast, helapsed]
  rw [hgate]
  simp [record_success, transition_to_half_open, transition_to_closed]

/-- Witness for C2 at the configured defaults: a breaker opened by a
failure at instant 3 is probed at instant 40 (cooldown 30 elapsed) and
the probe success at 41 closes it with the counter reset. -/
theorem c2_cooldown_probe_then_close_witness :
    (can_execute {} 40 (apply_failures {} [1, 2, 3] (CircuitBreaker.init "VendorOne" 0))).1 = true ∧
    (can_execute {} 40 (apply_failures {} [1, 2, 3] (CircuitBreaker.init "VendorOne" 0))).2.state = .half_open ∧
    (record_success 41 (can_execute {} 40 (apply_failures {} [1, 2, 3] (CircuitBreaker.init "VendorOne" 0))).2).state = .closed ∧
    (record_success 41 (can_execute {} 40 (apply_failures {} [1, 2, 3] (CircuitBreaker.init "VendorOne" 0))).2).failure_count = 0 :=
  c2_cooldown_probe_then_close {} 40 41 3
    (apply_failures {} [1, 2, 3] (CircuitBreaker.init "VendorOne" 0))
    (by decide) (by decide) (by decide)

/-- Claim C10: every `can_execute` call increments `total_calls` by one,
whatever it returns (so it is not a pure query), and the failure rate
reported by `get_metrics` divides `total_failures` by that same
`total_calls` counter, which therefore counts blocked gate checks. -/
theorem c10_can_execute_counts_blocked_calls (cfg : Config) (now tm : Int)
    (cb : CircuitBreaker) :
    (can_execute cfg now cb).2.total_calls = cb.total_calls + 1 ∧
    (0 < cb.total_calls →
      (get_metrics tm cb).failure_rate_percent =
        (cb.total_failures : ℚ) / (cb.total_calls : ℚ) * 100) := by
  constructor
  · simp only [can_execute, transition_to_half_open]
    split <;> (try split) <;> rfl
  · intro hpos
    simp [get_metrics, hpos]

/-- Witness for C10: a breaker that blocked a call (state `open`, recent
failure) still counts it, and the metrics denominator reflects that. -/
theorem c10_can_execute_counts_blocked_calls_witness :
    ((can_execute {} 4 (apply_failures {} [1, 2, 3] (CircuitBreaker.init "VendorOne" 0))).2.total_calls =
      (apply_failures {} [1, 2, 3] (CircuitBreaker.init "VendorOne" 0)).total_calls + 1) ∧
    (get_metrics 4 (can_execute {} 4 (apply_failures {} [1, 2, 3] (CircuitBreaker.init "VendorOne" 0))).2).failure_rate_percent =
      (3 : ℚ) / 1 * 100 := by
  constructor
  · exact (c10_can_execute_counts_blocked_calls {} 4 4
      (apply_failures {} [1, 2, 3] (CircuitBreaker.init "VendorOne" 0))).1
  · have h := (c10_can_execute_counts_blocked_calls {} 4 4
      (can_execute {} 4 (apply_failures {} [1, 2, 3] (CircuitBreaker.init "VendorOne" 0))).2).2
    have e1 : (can_execute {} 4 (apply_failures {} [1, 2, 3]
        (CircuitBreaker.init "VendorOne" 0))).2.total_failures = 3 := by decide
    have e2 : (can_execute {} 4 (apply_failures {} [1, 2, 3]
        (CircuitBreaker.init "VendorOne" 0))).2.total_calls = 1 := by decide
    rw [h (by rw [e2]; norm_num), e1, e2]
    norm_num

/-- Claim C4: for every per-vendor call that the breaker allowed to
proceed, exactly one breaker report is made for the whole call —
`record_success` when the call returns normally, `record_failure` when
its retries were exhausted and an exception escapes — never one report
per attempt. -/
theorem c4_one_report_per_logical_call (cfg : Config) (now : Int)
    (vendor_name : String) (cb : CircuitBreaker) (fetch : Nat → AttemptOutcome)
    (hallow : (can_execute cfg now cb).1 = true) :
    (query_vendor_with_circuit_breaker cfg now vendor_name cb fetch).reports.length = 1 ∧
    (∀ r, (query_vendor_with_circuit_breaker cfg now vendor_name cb fetch).result = .ok r →
      (query_vendor_with_circuit_breaker cfg now vendor_name cb fetch).reports =
        [.success]) ∧
    (∀ e, (query_vendor_with_circuit_breaker cfg now vendor_name cb fetch).result = .raised e →
      (query_vendor_with_circuit_breaker cfg now vendor_name cb fetch).reports =
        [.failure]) := by
  simp only [query_vendor_with_circuit_breaker, hallow, if_true]
  rcases hres : (query_vendor_with_retry cfg vendor_name fetch 1).result with r | e <;>
    simp [hres]

/-- Witness for C4: a fresh closed breaker allows the call, the vendor
answers on the first attempt, and exactly one `record_success` report is
made. -/
theorem c4_one_report_per_logical_call_witness :
    (query_vendor_with_circuit_breaker {} 0 "VendorOne"
      (CircuitBreaker.init "VendorOne" 0) (fun _ => .ok (some sampleQuoteA))).reports.length = 1 ∧
    (∀ r, (query_vendor_with_circuit_breaker {} 0 "VendorOne"
      (CircuitBreaker.init "VendorOne" 0) (fun _ => .ok (some sampleQuoteA))).result = .ok r →
      (query_vendor_with_circuit_breaker {} 0 "VendorOne"
        (CircuitBreaker.init "VendorOne" 0) (fun _ => .ok (some sampleQuoteA))).reports =
        [.success]) ∧
    (∀ e, (query_vendor_with_circuit_breaker {} 0 "VendorOne"
      (CircuitBreaker.init "VendorOne" 0) (fun _ => .ok (some sampleQuoteA))).result = .raised e →
      (query_vendor_with_circuit_breaker {} 0 "VendorOne"
        (CircuitBreaker.init "VendorOne" 0) (fun _ => .ok (some sampleQuoteA))).reports =
        [.failure]) :=
  c4_one_report_per_logical_call {} 0 "VendorOne"
    (CircuitBreaker.init "VendorOne" 0) (fun _ => .ok (some sampleQuoteA)) (by decide)

/-- Counterexample to claim C3 as stated: a vendor that explicitly
reports not found (returns `None` on the first attempt) does produce a
NotFound outcome without retrying, but `record_success` IS invoked and
the breaker does change — here a closed breaker with two recorded
consecutive failures has its counter reset to 0 (and its call counters
advance). -/
theorem c3_notfound_reports_success_counterexample :
    (query_vendor_with_circuit_breaker {} 5 "VendorOne" cbTwoFailures
      (fun _ => .ok none)).result = .ok none ∧
    (query_vendor_with_circuit_breaker {} 5 "VendorOne" cbTwoFailures
      (fun _ => .ok none)).reports = [.success] ∧
    (query_vendor_with_circuit_breaker {} 5 "VendorOne" cbTwoFailures
      (fun _ => .ok none)).breaker.failure_count = 0 ∧
    cbTwoFailures.failure_count = 2 ∧
    (query_vendor_with_circuit_breaker {} 5 "VendorOne" cbTwoFailures
      (fun _ => .ok none)).breaker ≠ cbTwoFailures := by
  decide

/-- Claim C3 as amended: when the vendor explicitly reports not found on
the first attempt of a breaker-allowed call, the per-vendor call returns
that NotFound outcome without retrying (one fetch, no backoff), but it
does interact with the breaker: `record_success` is invoked exactly
once, so the breaker is updated exactly as by a success. -/
theorem c3_notfound_no_retry_but_records_success (cfg : Config) (now : Int)
    (vendor_name : String) (cb : CircuitBreaker) (fetch : Nat → AttemptOutcome)
    (hallow : (can_execute cfg now cb).1 = true)
    (hnf : fetch 1 = .ok none) :
    (query_vendor_with_circuit_breaker cfg now vendor_name cb fetch).result = .ok none ∧
    (query_vendor_with_circuit_breaker cfg now vendor_name cb fetch).fetch_calls = 1 ∧
    (query_vendor_with_circuit_breaker cfg now vendor_name cb fetch).backoff_waits = [] ∧
    (query_vendor_with_circuit_breaker cfg now vendor_name cb fetch).reports = [.success] ∧
    (query_vendor_with_circuit_breaker cfg now vendor_name cb fetch).breaker =
      record_success now (can_execute cfg now cb).2 := by
  have hretry : query_vendor_with_retry cfg vendor_name fetch 1 = ⟨.ok none, 1, []⟩ := by
    rw [query_vendor_with_retry, hnf]
  simp [query_vendor_with_circuit_breaker, hallow, hretry]

/-- Witness for the amended C3: the concrete scenario of the
counterexample, derived by applying the amended theorem. -/
theorem c3_notfound_no_retry_but_records_success_witness :
    (query_vendor_with_circuit_breaker {} 5 "VendorOne" cbTwoFailures
      (fun _ => .ok none)).result = .ok none ∧
    (query_vendor_with_circuit_breaker {} 5 "VendorOne" cbTwoFailures
      (fun _ => .ok none)).fetch_calls = 1 ∧
    (query_vendor_with_circuit_breaker {} 5 "VendorOne" cbTwoFailures
      (fun _ => .ok none)).backoff_waits = [] ∧
    (query_vendor_with_circuit_breaker {} 5 "VendorOne" cbTwoFailures
      (fun _ => .ok none)).reports = [.success] ∧
    (query_vendor_with_circuit_breaker {} 5 "VendorOne" cbTwoFailures
      (fun _ => .ok none)).breaker =
      record_success 5 (can_execute {} 5 cbTwoFailures).2 :=
  c3_notfound_no_retry_but_records_success {} 5 "VendorOne" cbTwoFailures
    (fun _ => .ok none) (by decide) rfl

/-! ### Helper lemma for retry exhaustion -/

theorem retry_all_fail_aux (cfg : Config) (vendor_name : String)
    (fetch : Nat → AttemptOutcome)
    (hfail : ∀ i, fetch i = .timeout ∨ ∃ m, fetch i = .error m) :
    ∀ n attempt, attempt ≤ cfg.VENDOR_MAX_RETRIES →
      cfg.VENDOR_MAX_RETRIES - attempt = n →
      (query_vendor_with_retry cfg vendor_name fetch attempt).fetch_calls =
        cfg.VENDOR_MAX_RETRIES - attempt + 1 ∧
      (query_vendor_with_retry cfg vendor_name fetch attempt).backoff_waits =
        (List.range (cfg.VENDOR_MAX_RETRIES - attempt)).map
          (fun k => backoff_time (attempt + k)) ∧
      (query_vendor_with_retry cfg vendor_name fetch attempt).result =
        .raised (match fetch cfg.VENDOR_MAX_RETRIES with
                 | .error m => .vendorError m
                 | _ => .maxRetriesExceeded vendor_name) := by
  intro n
  induction n with
  | zero =>
      intro attempt hle hn
      have heq : attempt = cfg.VENDOR_MAX_RETRIES := by omega
      have hnlt : ¬ attempt < cfg.VENDOR_MAX_RETRIES := by omega
      rcases hfail attempt with ht | ⟨m, hm⟩
      · rw [query_vendor_with_retry, ht]
        simp [hnlt, hn, heq ▸ ht]
      · rw [query_vendor_with_retry, hm]
        simp [hnlt, hn, heq ▸ hm]
  | succ n ih =>
      intro attempt hle hn
      have hlt : attempt < cfg.VENDOR_MAX_RETRIES := by omega
      obtain ⟨ih1, ih2, ih3⟩ := ih (attempt + 1) (by omega) (by omega)
      have hwaits : backoff_time attempt ::
          (List.range (cfg.VENDOR_MAX_RETRIES - (attempt + 1))).map
            (fun k => backoff_time (attempt + 1 + k)) =
          (List.range (cfg.VENDOR_MAX_RETRIES - attempt)).map
            (fun k => backoff_time (attempt + k)) := by

        have hr : cfg.VENDOR_MAX_RETRIES - attempt = n + 1 := hn
        have hr1 : cfg.VENDOR_MAX_RETRIES - (attempt + 1) = n := by omega
        rw [hr, hr1, List.range_succ_eq_map, List.map_cons, List.map_map]
        have hfun : (fun k => backoff_time (attempt + 1 + k)) =
            ((fun k => backoff_time (attempt + k)) ∘ Nat.succ) := by
          funext k
          simp only [Function.comp_apply, Nat.succ_eq_add_one]
          congr 1
          omega
        rw [hfun, Nat.add_zero]
      rcases hfail attempt with ht | ⟨m, hm⟩
      · rw [query_vendor_with_retry, ht]
        simp only [hlt, dif_pos]
        refine ⟨by rw [ih1]; omega, by rw [ih2]; exact hwaits, ih3⟩
      · rw [query_vendor_with_retry, hm]
        simp only [hlt, dif_pos]
        refine ⟨by rw [ih1]; omega, by rw [ih2]; exact hwaits, ih3⟩

/-- Counterexample to claim C5 as stated: with the configured default
`VENDOR_MAX_RETRIES = 2` and every attempt timing out, `get_product` is
invoked 2 times in total, not `1 + 2`. -/
theorem c5_attempt_count_counterexample :
    (query_vendor_with_retry {} "VendorOne" (fun _ => .timeout) 1).fetch_calls = 2 ∧
    (query_vendor_with_retry {} "VendorOne" (fun _ => .timeout) 1).fetch_calls ≠ 1 + 2 := by
  decide

/-- Claim C5 as amended: when every attempt fails (timeout or other
error), the retry executor invokes `get_product` `VENDOR_MAX_RETRIES`
times in total (the initial attempt counts toward the maximum, so there
are `VENDOR_MAX_RETRIES - 1` retries), waits `0.1 * 2 ^ (attempt - 1)`
seconds before each retry, and terminates with the exception
"Max retries exceeded" when the final attempt timed out, or re-raises
the final attempt's own error otherwise. -/
theorem c5_all_attempts_fail_exhaustion (cfg : Config) (vendor_name : String)
    (fetch : Nat → AttemptOutcome)
    (hmax : 1 ≤ cfg.VENDOR_MAX_RETRIES)
    (hfail : ∀ i, fetch i = .timeout ∨ ∃ m, fetch i = .error m) :
    (query_vendor_with_retry cfg vendor_name fetch 1).fetch_calls =
      cfg.VENDOR_MAX_RETRIES ∧
    (query_vendor_with_retry cfg vendor_name fetch 1).backoff_waits =
      (List.range (cfg.VENDOR_MAX_RETRIES - 1)).map
        (fun k => (1 / 10 : ℚ) * 2 ^ k) ∧
    (fetch cfg.VENDOR_MAX_RETRIES = .timeout →
      (query_vendor_with_retry cfg vendor_name fetch 1).result =
        .raised (.maxRetriesExceeded vendor_name)) ∧
    (∀ m, fetch cfg.VENDOR_MAX_RETRIES = .error m →
      (query_vendor_with_retry cfg vendor_name fetch 1).result =
        .raised (.vendorError m)) := by
  obtain ⟨h1, h2, h3⟩ :=
    retry_all_fail_aux cfg vendor_name fetch hfail
      (cfg.VENDOR_MAX_RETRIES - 1) 1 hmax rfl
  refine ⟨by rw [h1]; omega, ?_, ?_, ?_⟩
  · rw [h2]
    congr 1
    funext k
    simp [backoff_time]
  · intro ht
    rw [h3, ht]
  · intro m hm
    rw [h3, hm]

/-- Witness for the amended C5 at the configured default of 2 attempts:
2 fetch calls, a single 0.1 second backoff, and the "Max retries
exceeded" terminal failure. -/
theorem c5_all_attempts_fail_exhaustion_witness :
    (query_vendor_with_retry {} "VendorOne" (fun _ => .timeout) 1).fetch_calls = 2 ∧
    (query_vendor_with_retry {} "VendorOne" (fun _ => .timeout) 1).result =
      .raised (.maxRetriesExceeded "VendorOne") :=
  ⟨(c5_all_attempts_fail_exhaustion {} "VendorOne" (fun _ => .timeout)
      (by decide) (fun i => Or.inl rfl)).1,
   (c5_all_attempts_fail_exhaustion {} "VendorOne" (fun _ => .timeout)
      (by decide) (fun i => Or.inl rfl)).2.2.1 rfl⟩

/-- Claim C7: the freshness filter returns exactly the sublist, in
original order, of the input quotes whose timestamp is at or after
`now - max_age` (inclusive boundary); it is a pure function of its
input, captured here by its return value being a characterized new list
(the Python list comprehension never mutates the input). -/
theorem c7_freshness_filter_exact_sublist (cfg : Config) (now : Int)
    (responses : List VendorResponse) :
    (filter_by_freshness cfg now responses).Sublist responses ∧
    filter_by_freshness cfg now responses =
      responses.filter
        (fun r => decide (now - 60 * cfg.DATA_FRESHNESS_MINUTES ≤ r.timestamp)) ∧
    (∀ r, r ∈ responses → now - 60 * cfg.DATA_FRESHNESS_MINUTES ≤ r.timestamp →
      r ∈ filter_by_freshness cfg now responses) ∧
    (∀ r, r ∈ filter_by_freshness cfg now responses →
      now - 60 * cfg.DATA_FRESHNESS_MINUTES ≤ r.timestamp ∧ r ∈ responses) := by
  refine ⟨List.filter_sublist responses, rfl, ?_, ?_⟩
  · intro r hr hts
    simp only [filter_by_freshness, List.mem_filter]
    exact ⟨hr, by simpa using hts⟩
  · intro r hr
    simp only [filter_by_freshness, List.mem_filter] at hr
    exact ⟨by simpa using hr.2, hr.1⟩

/-- Witness for C7 at the configured default of 10 minutes: with
`now = 0` the cutoff is -600; a quote stamped exactly -600 is retained
while one stamped -601 is dropped. -/
theorem c7_freshness_filter_exact_sublist_witness :
    { sampleQuoteA with timestamp := -600 } ∈
      filter_by_freshness {} 0
        [{ sampleQuoteA with timestamp := -600 },
         { sampleQuoteA with timestamp := -601 }] ∧
    filter_by_freshness {} 0
        [{ sampleQuoteA with timestamp := -600 },
         { sampleQuoteA with timestamp := -601 }] =
      [{ sampleQuoteA with timestamp := -600 }] :=
  ⟨(c7_freshness_filter_exact_sublist {} 0
      [{ sampleQuoteA with timestamp := -600 },
       { sampleQuoteA with timestamp := -601 }]).2.2.1
      { sampleQuoteA with timestamp := -600 } (by decide) (by decide),
   by decide⟩

/-! ### Helper lemma for the fan-out collection -/

theorem fanout_keep_eq_some (r : VendorCallOutcome) (q : VendorResponse) :
    (match r.result with
     | .ok (some q0) => some q0
     | _ => none) = some q ↔ r.result = .ok (some q) := by
  rcases hr : r.result with r0 | e
  · rcases r0 with _ | q0 <;> simp
  · simp

/-- Claim C9: the fan-out returns exactly the quotes of the vendor calls
that returned a quote — membership in the returned list is equivalent to
some call returning that quote — and in particular, for one failing and
one succeeding vendor, the result is exactly the successful vendor's
quote; no exception propagates (the fan-out is total by construction,
mirroring `asyncio.gather(..., return_exceptions=True)`). -/
theorem c9_fanout_collects_successes (cfg : Config) (now : Int) :
    (∀ calls q, q ∈ query_all_vendors cfg now calls ↔
      ∃ c ∈ calls,
        (query_vendor_with_circuit_breaker cfg now c.name c.breaker c.fetch).result =
          .ok (some q)) ∧
    (∀ c1 c2 e q,
      (query_vendor_with_circuit_breaker cfg now c1.name c1.breaker c1.fetch).result =
        .raised e →
      (query_vendor_with_circuit_breaker cfg now c2.name c2.breaker c2.fetch).result =
        .ok (some q) →
      query_all_vendors cfg now [c1, c2] = [q]) := by
  constructor
  · intro calls q
    simp only [query_all_vendors, List.mem_filterMap, List.mem_map]
    constructor
    · rintro ⟨r, ⟨c, hc, hmap⟩, hkeep⟩
      exact ⟨c, hc, (fanout_keep_eq_some r q).mp (hmap ▸ hkeep) |>.symm ▸
        ((fanout_keep_eq_some _ q).mp (by rw [hmap]; exact hkeep))⟩
    · rintro ⟨c, hc, hres⟩
      exact ⟨query_vendor_with_circuit_breaker cfg now c.name c.breaker c.fetch,
        ⟨c, hc, rfl⟩, (fanout_keep_eq_some _ q).mpr hres⟩
  · intro c1 c2 e q h1 h2
    simp [query_all_vendors, List.filterMap_cons, h1, h2]

/-- Witness for C9: VendorOne raises after exhausted retries, VendorTwo
answers with a quote; the fan-out returns exactly VendorTwo's quote. -/
theorem c9_fanout_collects_successes_witness :
    query_all_vendors {} 0
      [⟨"VendorOne", CircuitBreaker.init "VendorOne" 0, fun _ => .error "boom"⟩,
       ⟨"VendorTwo", CircuitBreaker.init "VendorTwo" 0, fun _ => .ok (some sampleQuoteB)⟩] =
      [sampleQuoteB] :=
  (c9_fanout_collects_successes {} 0).2
    ⟨"VendorOne", CircuitBreaker.init "VendorOne" 0, fun _ => .error "boom"⟩
    ⟨"VendorTwo", CircuitBreaker.init "VendorTwo" 0, fun _ => .ok (some sampleQuoteB)⟩
    (.vendorError "boom") sampleQuoteB (by decide) (by decide)

/-! ### Helper lemmas for the selection policy -/

theorem in_stock_filter_eq (r : VendorResponse) :
    (decide (0 < r.stock) && (r.status == ProductStatus.IN_STOCK)) =
      !((r.stock == 0) || (r.status == ProductStatus.OUT_OF_STOCK)) := by
  cases hst : r.status <;> cases hstock : r.stock <;> simp [hst, hstock] <;> rfl

theorem scan_eq_find (threshold : ℚ) (cheapest : VendorResponse)
    (l : List VendorResponse) :
    scan_for_higher_stock threshold cheapest l =
      l.find? (fun q =>
        decide (threshold < (q.price - cheapest.price) / cheapest.price * 100) &&
        decide (cheapest.stock < q.stock)) := by
  induction l with
  | nil => rfl
  | cons v rest ih =>
      simp only [scan_for_higher_stock]
      by_cases h1 : (v.price - cheapest.price) / cheapest.price * 100 ≤ threshold
      · rw [if_pos h1, ih, List.find?_cons_of_neg]
        simp [not_lt.mpr h1]
      · by_cases h2 : cheapest.stock < v.stock
        · rw [if_neg h1, if_pos h2, List.find?_cons_of_pos]
          simp [not_le.mp h1, h2]
        · rw [if_neg h1, if_neg h2, ih, List.find?_cons_of_neg]
          simp [h2]

/-- Claim C6: the selection policy of the source equals the reference
policy worded by the specification — discard quotes with `stock == 0` or
status `OUT_OF_STOCK`; if none remain, no selection; otherwise sort by
price ascending and return the first non-cheapest quote whose percent
price difference from the cheapest strictly exceeds the threshold and
whose stock strictly exceeds the cheapest's, falling back to the
cheapest. -/
theorem c6_selection_policy_matches_spec (cfg : Config)
    (responses : List VendorResponse) :
    select_best_vendor cfg responses =
      selection_policy_spec cfg.PRICE_DIFFERENCE_THRESHOLD_PERCENT responses := by
  have hfil : responses.filter
      (fun q => !((q.stock == 0) || (q.status == ProductStatus.OUT_OF_STOCK))) =
      responses.filter
      (fun r => decide (0 < r.stock) && (r.status == ProductStatus.IN_STOCK)) := by
    apply List.filter_congr
    intro r hr
    exact (in_stock_filter_eq r).symm
  simp only [select_best_vendor, selection_policy_spec, hfil]
  set L := responses.filter
    (fun r => decide (0 < r.stock) && (r.status == ProductStatus.IN_STOCK)) with hLdef
  by_cases hemp : L.isEmpty
  · have hLnil : L = [] := List.isEmpty_iff.mp hemp
    rw [if_pos hemp, hLnil, List.mergeSort_nil]
  · rw [if_neg hemp]
    rcases hs : L.mergeSort (fun a b => decide (a.price ≤ b.price)) with _ | ⟨cheapest, rest⟩
    · exfalso
      have hperm := List.mergeSort_perm L (fun a b => decide (a.price ≤ b.price))
      rw [hs] at hperm
      have hLnil : L = [] := hperm.symm.eq_nil
      exact hemp (by simp [hLnil])
    · simp only [hs]
      by_cases hrest : rest.isEmpty
      · have hrnil : rest = [] := List.isEmpty_iff.mp hrest
        rw [if_pos hrest, hrnil]
        simp
      · rw [if_neg hrest, scan_eq_find]

/-- Claim C8: on a cache miss, when the pipeline selects a quote the
aggregate answer is written to the cache with the configured TTL and
returned; when no quote is selected (nothing fresh, or everything out of
stock) the negative result is returned with no cache write at all. -/
theorem c8_cache_write_policy (cfg : Config) (now : Int) (sku : String)
    (calls : List VendorCall) :
    (∀ best,
      select_best_vendor cfg
          (filter_by_freshness cfg now (query_all_vendors cfg now calls)) =
        some best →
      get_best_vendor cfg now sku none calls =
        ⟨some { sku := sku, vendor := some best.vendor_name,
                price := some best.price, stock := some best.stock,
                status := best.status, timestamp := some best.timestamp },
          [⟨sku,
            { sku := sku, vendor := some best.vendor_name,
              price := some best.price, stock := some best.stock,
              status := best.status, timestamp := some best.timestamp },
            cfg.CACHE_TTL_SECONDS⟩]⟩) ∧
    (select_best_vendor cfg
        (filter_by_freshness cfg now (query_all_vendors cfg now calls)) =
      none →
      get_best_vendor cfg now sku none calls = ⟨none, []⟩) := by
  constructor
  · intro best hsel
    simp only [get_best_vendor]
    by_cases hemp :
      (filter_by_freshness cfg now (query_all_vendors cfg now calls)).isEmpty
    · exfalso
      have hnil : filter_by_freshness cfg now (query_all_vendors cfg now calls) = [] :=
        List.isEmpty_iff.mp hemp
      rw [hnil] at hsel
      simp [select_best_vendor] at hsel
    · rw [if_neg hemp, hsel]
  · intro hsel
    simp only [get_best_vendor]
    by_cases hemp :
      (filter_by_freshness cfg now (query_all_vendors cfg now calls)).isEmpty
    · rw [if_pos hemp]
    · rw [if_neg hemp, hsel]

-- Allow kernel evaluation of the sort and of rational arithmetic on
-- concrete inputs.
unseal List.merge List.mergeSort

unseal Rat.sub Rat.mul Rat.inv

/-- Witness for C8: with one healthy vendor answering a fresh in-stock
quote, the answer is returned and cached with the default 120-second
TTL; with no vendors, nothing is selected, nothing is returned and
nothing is cached. -/
theorem c8_cache_write_policy_witness :
    get_best_vendor {} 0 "ABC123" none
        [⟨"VendorTwo", CircuitBreaker.init "VendorTwo" 0,
          fun _ => .ok (some sampleQuoteB)⟩] =
      ⟨some { sku := "ABC123", vendor := some "VendorTwo", price := some 115,
              stock := some 50, status := .IN_STOCK, timestamp := some 0 },
        [⟨"ABC123",
          { sku := "ABC123", vendor := some "VendorTwo", price := some 115,
            stock := some 50, status := .IN_STOCK, timestamp := some 0 },
          120⟩]⟩ ∧
    get_best_vendor {} 0 "ABC123" none [] = ⟨none, []⟩ :=
  ⟨(c8_cache_write_policy {} 0 "ABC123"
      [⟨"VendorTwo", CircuitBreaker.init "VendorTwo" 0,
        fun _ => .ok (some sampleQuoteB)⟩]).1 sampleQuoteB (by decide),
   (c8_cache_write_policy {} 0 "ABC123" []).2 (by decide)⟩

/-- Sanity check from spec §8: given quotes (price 100, stock 5) and
(price 115, stock 50) with the default 10 percent threshold, the policy
selects the pricier higher-stock quote (15 percent difference). -/
theorem select_best_vendor_override_example :
    select_best_vendor {} [sampleQuoteA, sampleQuoteB] = some sampleQuoteB := by
  decide

/-- Sanity check from spec §8: at (price 100, stock 5) and (price 108,
stock 50) the 8 percent difference is within the threshold and the
cheapest wins. -/
theorem select_best_vendor_within_threshold_example :
    select_best_vendor {} [sampleQuoteA, { sampleQuoteB with price := 108 }] =
      some sampleQuoteA := by
  decide

/-- Sanity check from spec §8: with every quote out of stock the policy
returns no selection. -/
theorem select_best_vendor_no_stock_example :
    select_best_vendor {}
      [{ sampleQuoteA with stock := 0, status := .OUT_OF_STOCK }] = none := by
  decide
